import Mathlib

/-!
Verification of the EXIF value-normalization and GPS-conversion layer of the
photo-tools repository (src/exif_analyzer.py and
src/photo_analyzer/photo_metadata_analyzer.py).

Python's dynamically typed EXIF tag values are modelled by the inductive type
`PyVal`; Python floats are modelled by exact rationals (ℚ), so every arithmetic
statement below holds exactly where the floating-point program holds within
rounding tolerance.  Code paths that raise an uncaught Python exception are
modelled with `Except Unit`; code that catches all exceptions and returns a
sentinel is modelled as a total function into `Option`.
-/

namespace PhotoTools

/-- Model of a dynamically typed Python value as it can appear as a raw EXIF
tag value: `None`, `int`, `float` (as an exact rational), `str`, `bytes`
(as the list of byte values), a tuple/list of values, and a nested `dict`
keyed by strings (used for the `GPSInfo` sub-dictionary). -/
inductive PyVal : Type
  | pynone : PyVal
  | pint : ℤ → PyVal
  | pfloat : ℚ → PyVal
  | pstr : String → PyVal
  | pbytes : List ℕ → PyVal
  | pseq : List PyVal → PyVal
  | pdict : List (String × PyVal) → PyVal

/-- A Python dict with string keys, as produced by the EXIF tag-name
conversion loops of the repository. -/
abbrev PyDict := List (String × PyVal)

/-- Dictionary lookup: `d[k]` / `k in d` / `d.get(k)` on a string-keyed dict. -/
def dictGet (d : PyDict) (k : String) : Option PyVal :=
  (d.find? (fun p => p.1 == k)).map (fun p => p.2)

/-- Splits a leading run of decimal digits off a character list. -/
def splitDigits : List Char → List Char × List Char
  | [] => ([], [])
  | c :: cs =>
    if c.isDigit then
      let p := splitDigits cs
      (c :: p.1, p.2)
    else ([], c :: cs)

/-- Numeric value of a list of decimal digit characters. -/
def digitsToNat (ds : List Char) : ℕ :=
  ds.foldl (fun a c => 10 * a + (c.toNat - 48)) 0

/-- Strips leading and trailing whitespace from a character list (the
whitespace stripping of Python's `float(s)`). -/
def trimChars (cs : List Char) : List Char :=
  ((cs.dropWhile Char.isWhitespace).reverse.dropWhile Char.isWhitespace).reverse

/-- Model of Python's `float(s)` on a string: optional surrounding whitespace,
optional sign, decimal digits with an optional fractional part, and an
optional decimal exponent.  (Python additionally accepts `inf`/`nan` and
digit-group underscores; infinities and NaN have no rational counterpart and
are outside this model.) -/
def parsePyFloat (s : String) : Option ℚ :=
  let cs := trimChars s.toList
  let sgn : ℚ × List Char :=
    match cs with
    | '+' :: r => (1, r)
    | '-' :: r => (-1, r)
    | r => (1, r)
  let ip := splitDigits sgn.2
  let fp :=
    match ip.2 with
    | '.' :: r => splitDigits r
    | r => ([], r)
  if ip.1.isEmpty && fp.1.isEmpty then none
  else
    let mant : ℚ := (digitsToNat ip.1 : ℚ) + (digitsToNat fp.1 : ℚ) / (10 ^ fp.1.length)
    match fp.2 with
    | [] => some (sgn.1 * mant)
    | e :: r =>
      if e == 'e' || e == 'E' then
        let esgn : ℤ × List Char :=
          match r with
          | '+' :: r2 => (1, r2)
          | '-' :: r2 => (-1, r2)
          | r2 => (1, r2)
        let ed := splitDigits esgn.2
        if ed.1.isEmpty || !ed.2.isEmpty then none
        else some (sgn.1 * mant * (10 : ℚ) ^ (esgn.1 * (digitsToNat ed.1 : ℤ)))
      else none

/-- The decimal digits of the fractional part `q` (with `0 ≤ q < 1`) of a
float, up to `k` digits, stopping once the remainder is exactly zero.  Models
the digit sequence of Python's shortest-repr float printing for values whose
digits terminate. -/
def fracDigits : ℕ → ℚ → List ℕ
  | 0, _ => []
  | k + 1, q =>
    let d : ℤ := ⌊q * 10⌋
    let r : ℚ := q * 10 - (d : ℚ)
    d.toNat :: (if r = 0 then [] else fracDigits k r)

/-- Model of Python's `str`/`repr` of a float: sign, integer part, a decimal
point, and the fractional digits (at least one digit, so `str(2.0) = "2.0"`).
Python prints 17 significant digits at most; non-terminating rational digit
expansions are truncated at 17 fractional digits. -/
def pyFloatRepr (q : ℚ) : String :=
  let sign := if q < 0 then "-" else ""
  let a := |q|
  let ip : ℕ := (⌊a⌋).toNat
  let fr : ℚ := a - (⌊a⌋ : ℚ)
  let ds := if fr = 0 then [0] else fracDigits 17 fr
  sign ++ toString ip ++ "." ++ String.join (ds.map toString)

mutual

/-- Model of Python's `repr` on a `PyVal` (strings quoted, tuples
parenthesized; the reprs of byte blobs and dicts are abbreviated, no claim
depends on them). -/
def pyRepr : PyVal → String
  | .pynone => "None"
  | .pint n => toString n
  | .pfloat x => pyFloatRepr x
  | .pstr s => "\x27" ++ s ++ "\x27"
  | .pbytes bs => "<" ++ toString bs.length ++ " bytes>"
  | .pseq vs => "(" ++ String.intercalate ", " (pyReprList vs) ++ ")"
  | .pdict d => "<dict with " ++ toString d.length ++ " entries>"

/-- `repr` mapped over the elements of a tuple. -/
def pyReprList : List PyVal → List String
  | [] => []
  | v :: vs => pyRepr v :: pyReprList vs

end

/-- Model of Python's `str` on a `PyVal` (as `repr`, except strings are
unquoted). -/
def pyStr : PyVal → String
  | .pstr s => s
  | v => pyRepr v

/-- Model of the builtin `float(x)` for a `PyVal` argument: identity on
numbers, string (and ASCII byte-string) parsing, and `none` for every
argument on which Python raises `TypeError`/`ValueError`. -/
def pyFloat? : PyVal → Option ℚ
  | .pint n => some (n : ℚ)
  | .pfloat x => some x
  | .pstr s => parsePyFloat s
  | .pbytes bs => parsePyFloat (String.mk (bs.map Char.ofNat))
  | _ => none

/-- Model of the Python comparison `v == 0` on a raw tag value: true exactly
for the numbers `0` and `0.0` (comparison of a non-number with `0` is `False`
in Python, never an error). -/
def pyEqZero : PyVal → Bool
  | .pint n => n == 0
  | .pfloat x => decide (x = 0)
  | _ => false

/-- Python `int(q)` on a float: truncation toward zero. -/
def pyInt (q : ℚ) : ℤ :=
  if q < 0 then ⌈q⌉ else ⌊q⌋

/-- Python `round(q)` on a float: round half to even (banker's rounding). -/
def pyRoundHalfEven (q : ℚ) : ℤ :=
  let f := ⌊q⌋
  let r := q - (f : ℚ)
  if r < 1 / 2 then f
  else if 1 / 2 < r then f + 1
  else if Even f then f else f + 1

/-- Writes the integer `n` (representing a value already scaled by `10^k` and
rounded) as a fixed-point decimal string with `k` fractional digits. -/
def fixedDigits (k : ℕ) (n : ℤ) : String :=
  let sign := if n < 0 then "-" else ""
  let a := n.natAbs
  let ip := a / 10 ^ k
  let fr := a % 10 ^ k
  let frs := toString fr
  let pad := String.mk (List.replicate (k - frs.length) '0')
  sign ++ toString ip ++ "." ++ pad ++ frs

/-- Model of Python's fixed-point format `f"{q:.kf}"` on a float. -/
def formatFixed (k : ℕ) (q : ℚ) : String :=
  fixedDigits k (pyRoundHalfEven (q * 10 ^ k))

namespace ExifValueConverter

/-- Embeds `ExifValueConverter.to_float` (src/exif_analyzer.py lines 21-63).
The branch order follows the source: `None`; tuple/list of length `≥ 2`
treated as a fraction of its first two elements (with the `denominator == 0`
guard before the conversion, and `float(...)` failures or float division by
zero caught by the enclosing handler); direct numerics; strings; bytes;
single-element sequences unwrapped recursively; everything else an unknown
type.  All exception paths of the source are caught inside the function, so
the embedding is total; the exact text of caught exception messages is
abbreviated to the exception kind. -/
def to_float (value : PyVal) (value_name : String) : Option ℚ × String :=
  match value with
  | .pynone => (none, "None value")
  | .pseq (n :: d :: rest) =>
    if pyEqZero d then
      (none, "Division by zero in fraction " ++ pyRepr (.pseq (n :: d :: rest)))
    else
      match pyFloat? n, pyFloat? d with
      | some a, some b =>
        if b = 0 then (none, "Conversion error: float division by zero")
        else (some (a / b),
              "Fraction " ++ pyStr n ++ "/" ++ pyStr d ++ " = " ++ pyFloatRepr (a / b))
      | _, _ => (none, "Conversion error: TypeError")
  | .pseq [v] => to_float v (value_name ++ "[0]")
  | .pseq [] => (none, "Unknown type: " ++ pyRepr (.pseq []))
  | .pint n => (some (n : ℚ), "Direct numeric: " ++ toString n)
  | .pfloat x => (some x, "Direct numeric: " ++ pyFloatRepr x)
  | .pstr s =>
    match parsePyFloat s with
    | some x => (some x, "String parsed: \x27" ++ s ++ "\x27")
    | none => (none, "Non-numeric string: \x27" ++ s ++ "\x27")
  | .pbytes bs => (none, "Bytes data (" ++ toString bs.length ++ " bytes) - not numeric")
  | .pdict d => (none, "Unknown type: " ++ pyRepr (.pdict d))

/-- Embeds `ExifValueConverter.format_shutter_speed` (lines 65-78).  For a
time below one second the source computes `int(round(1 / t))`; the only
exception reachable there is the division by zero at `t = 0`, which the bare
`except` turns into the `f"{t:.6f}s"` fallback. -/
def format_shutter_speed : Option ℚ → String
  | none => "Unknown"
  | some t =>
    if t < 1 then
      if t = 0 then formatFixed 6 t ++ "s"
      else "1/" ++ toString (pyRoundHalfEven (1 / t))
    else pyFloatRepr t ++ "s"

/-- The flash-mode decode table of `decode_flash_value` (lines 114-137). -/
def flash_modes : ℤ → Option String
  | 0 => some "No flash"
  | 1 => some "Flash fired"
  | 5 => some "Strobe return light not detected"
  | 7 => some "Strobe return light detected"
  | 9 => some "Flash fired, compulsory flash mode"
  | 13 => some "Flash fired, compulsory flash mode, return light not detected"
  | 15 => some "Flash fired, compulsory flash mode, return light detected"
  | 16 => some "Flash did not fire, compulsory flash mode"
  | 24 => some "Flash did not fire, auto mode"
  | 25 => some "Flash fired, auto mode"
  | 29 => some "Flash fired, auto mode, return light not detected"
  | 31 => some "Flash fired, auto mode, return light detected"
  | 32 => some "No flash function"
  | 65 => some "Flash fired, red-eye reduction mode"
  | 69 => some "Flash fired, red-eye reduction mode, return light not detected"
  | 71 => some "Flash fired, red-eye reduction mode, return light detected"
  | 73 => some "Flash fired, compulsory flash mode, red-eye reduction mode"
  | 77 => some "Flash fired, compulsory flash mode, red-eye reduction mode, return light not detected"
  | 79 => some "Flash fired, compulsory flash mode, red-eye reduction mode, return light detected"
  | 89 => some "Flash fired, auto mode, red-eye reduction mode"
  | 93 => some "Flash fired, auto mode, return light not detected, red-eye reduction mode"
  | 95 => some "Flash fired, auto mode, return light detected, red-eye reduction mode"
  | _ => none

/-- Embeds `ExifValueConverter.decode_flash_value` (lines 108-139) at its
(only) call type: the argument is the float produced by `to_float`, or
`None`.  The table is keyed by `int(flash_value)` (truncation), but the
fallback string interpolates the original float `flash_value` itself. -/
def decode_flash_value : Option ℚ → String
  | none => "Unknown"
  | some v => (flash_modes (pyInt v)).getD ("Unknown mode (" ++ pyFloatRepr v ++ ")")

/-- The metering-mode decode table of `decode_metering_mode` (lines 147-156). -/
def metering_modes : ℤ → Option String
  | 0 => some "Unknown"
  | 1 => some "Average"
  | 2 => some "Center-weighted average"
  | 3 => some "Spot"
  | 4 => some "Multi-spot"
  | 5 => some "Pattern"
  | 6 => some "Partial"
  | 255 => some "Other"
  | _ => none

/-- Embeds `ExifValueConverter.decode_metering_mode` (lines 141-158). -/
def decode_metering_mode : Option ℚ → String
  | none => "Unknown"
  | some v => (metering_modes (pyInt v)).getD ("Unknown mode (" ++ pyFloatRepr v ++ ")")

/-- The white-balance decode table of `decode_white_balance` (lines 166-193). -/
def wb_modes : ℤ → Option String
  | 0 => some "Auto"
  | 1 => some "Manual"
  | 2 => some "Auto (warm light)"
  | 3 => some "Auto (cool light)"
  | 4 => some "Auto (daylight)"
  | 5 => some "Auto (cloudy)"
  | 6 => some "Auto (tungsten)"
  | 7 => some "Auto (fluorescent)"
  | 8 => some "Auto (flash)"
  | 9 => some "Manual"
  | 10 => some "Cloudy"
  | 11 => some "Shade"
  | 17 => some "Manual"
  | 18 => some "Daylight fluorescent"
  | 19 => some "Day white fluorescent"
  | 20 => some "Cool white fluorescent"
  | 21 => some "White fluorescent"
  | 22 => some "Warm white fluorescent"
  | 23 => some "Standard light A"
  | 24 => some "Standard light B"
  | 25 => some "Standard light C"
  | 26 => some "D55"
  | 27 => some "D65"
  | 28 => some "D75"
  | 29 => some "D50"
  | 30 => some "ISO studio tungsten"
  | _ => none

/-- Embeds `ExifValueConverter.decode_white_balance` (lines 160-195). -/
def decode_white_balance : Option ℚ → String
  | none => "Unknown"
  | some v => (wb_modes (pyInt v)).getD ("Unknown mode (" ++ pyFloatRepr v ++ ")")

end ExifValueConverter

namespace GPSExtractor

/-- Conversion of one DMS component inside `convert_coordinate`
(src/exif_analyzer.py lines 479-481): a plain number is taken by `float(c)`;
anything else is subscripted as `float(c[0]) / float(c[1])`.  Subscripting a
string yields its single-character prefixes, subscripting bytes yields the
byte values.  The enclosing handler (line 486) catches only `ValueError`,
`TypeError` and `ZeroDivisionError`, modelled as `.ok none`; an `IndexError`
from a component of fewer than two elements/characters/bytes, or a
`KeyError` from a dict component, is not caught and propagates out of the
converter, modelled as `.error`. -/
def dmsComponent : PyVal → Except Unit (Option ℚ)
  | .pint n => .ok (some (n : ℚ))
  | .pfloat x => .ok (some x)
  | .pynone => .ok none
  | .pseq (a :: b :: _) =>
    .ok (match pyFloat? a, pyFloat? b with
         | some x, some y => if y = 0 then none else some (x / y)
         | _, _ => none)
  | .pseq _ => .error ()
  | .pstr s =>
    match s.toList with
    | c0 :: c1 :: _ =>
      .ok (match parsePyFloat (String.mk [c0]), parsePyFloat (String.mk [c1]) with
           | some x, some y => if y = 0 then none else some (x / y)
           | _, _ => none)
    | _ => .error ()
  | .pbytes (b0 :: b1 :: _) =>
    .ok (if b1 = 0 then none else some ((b0 : ℚ) / (b1 : ℚ)))
  | .pbytes _ => .error ()
  | .pdict _ => .error ()

/-- Embeds the inner `convert_coordinate` of
`GPSExtractor.convert_gps_to_decimal` (lines 471-488): a `None` value yields
`None` before the `try`; a sequence of length `≥ 3` is converted as
degrees + minutes/60 + seconds/3600, where a caught component failure
collapses the whole coordinate to `None` and an uncaught subscript error
propagates; anything else goes through `float(...)`, whose failures
(`TypeError`/`ValueError`) are caught. -/
def convert_coordinate : PyVal → Except Unit (Option ℚ)
  | .pynone => .ok none
  | .pseq (d :: m :: s :: _) =>
    match dmsComponent d with
    | .error e => .error e
    | .ok none => .ok none
    | .ok (some dd) =>
      match dmsComponent m with
      | .error e => .error e
      | .ok none => .ok none
      | .ok (some mm) =>
        match dmsComponent s with
        | .error e => .error e
        | .ok none => .ok none
        | .ok (some ss) => .ok (some (dd + mm / 60 + ss / 3600))
  | .pseq vs => .ok (pyFloat? (.pseq vs))
  | v => .ok (pyFloat? v)

/-- Python `gps_info.get(ref_tag) == s` for a hemisphere reference string. -/
def refIs (o : Option PyVal) (s : String) : Bool :=
  match o with
  | some (.pstr t) => t == s
  | _ => false

/-- Python `gps_info.get("GPSAltitudeRef") == 1` (true for the numbers `1`
and `1.0`). -/
def refIsOne (o : Option PyVal) : Bool :=
  match o with
  | some (.pint n) => n == 1
  | some (.pfloat x) => decide (x = 1)
  | _ => false

/-- The result dictionary of `GPSExtractor.convert_gps_to_decimal`. -/
structure GpsDecimal where
  latitude : Option ℚ
  longitude : Option ℚ
  altitude : Option ℚ

/-- One field of the `convert_gps_to_decimal` result: an absent tag or a
caught conversion failure leaves the field `None`, a converted value gets
the sign `neg` applied, and an uncaught error from the conversion
propagates. -/
def convertField (gps_info : PyDict) (tag : String) (neg : Bool) :
    Except Unit (Option ℚ) :=
  match dictGet gps_info tag with
  | none => .ok none
  | some v =>
    match convert_coordinate v with
    | .error e => .error e
    | .ok none => .ok none
    | .ok (some l) => .ok (some (if neg then -l else l))

/-- Embeds `GPSExtractor.convert_gps_to_decimal` (lines 464-517): each of the
three fields starts as `None` and is set independently when its tag is
present and its coordinate converts; latitude is negated when the latitude
reference equals `"S"`, longitude when the longitude reference equals `"W"`,
altitude when the altitude reference equals `1`.  The fields are processed
in source order and an uncaught error aborts the whole function. -/
def convert_gps_to_decimal (gps_info : PyDict) : Except Unit GpsDecimal :=
  if gps_info.isEmpty then .ok ⟨none, none, none⟩
  else
    match convertField gps_info "GPSLatitude"
        (refIs (dictGet gps_info "GPSLatitudeRef") "S") with
    | .error e => .error e
    | .ok lat =>
      match convertField gps_info "GPSLongitude"
          (refIs (dictGet gps_info "GPSLongitudeRef") "W") with
      | .error e => .error e
      | .ok lon =>
        match convertField gps_info "GPSAltitude"
            (refIsOne (dictGet gps_info "GPSAltitudeRef")) with
        | .error e => .error e
        | .ok alt => .ok ⟨lat, lon, alt⟩

end GPSExtractor

namespace CameraSettingsExtractor

open ExifValueConverter

/-- Embeds `CameraSettingsExtractor.extract_setting` (src/exif_analyzer.py
lines 209-220), keeping only the converted value (the diagnostic string is
the second component of `to_float` and is only printed). -/
def extract_setting (exif_data : PyDict) (tag_name : String) : Option ℚ :=
  match dictGet exif_data tag_name with
  | none => none
  | some raw => (to_float raw tag_name).1

/-- The APEX aperture formula `2 ** (apex_value / 2)` of `extract_aperture`
(line 237), over the reals. -/
noncomputable def apexToFNumber (apex : ℚ) : ℝ :=
  (2 : ℝ) ^ ((apex : ℝ) / 2)

/-- The APEX shutter formula `2 ** (-apex_value)` of `extract_shutter_speed`
(line 274), over the reals. -/
noncomputable def apexToSeconds (apex : ℚ) : ℝ :=
  (2 : ℝ) ^ (-(apex : ℝ))

/-- Association lookup in an extraction-results dictionary. -/
def resultGet (l : List (String × ℝ)) (k : String) : Option ℝ :=
  (l.find? (fun p => p.1 == k)).map (fun p => p.2)

/-- Embeds `CameraSettingsExtractor.extract_aperture` (lines 222-256): the
results dictionary gains an `FNumber` entry (direct value), an
`ApertureValue` entry (`2 ** (apex / 2)`) and a `MaxApertureValue` entry
(`2 ** (apex / 2)`) for each tag that is present and converts.  (The
`try`/`except` around the power computation only fires on float overflow,
which has no counterpart over ℝ.) -/
noncomputable def extract_aperture (exif_data : PyDict) : List (String × ℝ) :=
  (match extract_setting exif_data "FNumber" with
   | some f => [("FNumber", (f : ℝ))]
   | none => []) ++
  (match extract_setting exif_data "ApertureValue" with
   | some a => [("ApertureValue", apexToFNumber a)]
   | none => []) ++
  (match extract_setting exif_data "MaxApertureValue" with
   | some a => [("MaxApertureValue", apexToFNumber a)]
   | none => [])

/-- Embeds `CameraSettingsExtractor.extract_shutter_speed` (lines 258-284):
an `ExposureTime` entry (direct value) and a `ShutterSpeedValue` entry
(`2 ** (-apex)`) for each tag that is present and converts. -/
noncomputable def extract_shutter_speed (exif_data : PyDict) : List (String × ℝ) :=
  (match extract_setting exif_data "ExposureTime" with
   | some t => [("ExposureTime", (t : ℝ))]
   | none => []) ++
  (match extract_setting exif_data "ShutterSpeedValue" with
   | some a => [("ShutterSpeedValue", apexToSeconds a)]
   | none => [])

/-- One entry of the `extract_exposure_info` results dictionary: the raw
value, the `to_float` conversion, and the decoded value (the raw value
unless the tag is one of the three decoded enumerations and the conversion
succeeded, in which case the decoded string). -/
structure ExposureEntry where
  raw : PyVal
  numeric : Option ℚ
  decoded : PyVal

/-- The per-tag body of the `extract_exposure_info` loop (lines 367-387). -/
def decodeField (tag : String) (raw : PyVal) : ExposureEntry :=
  let numeric := (to_float raw tag).1
  let decoded :=
    match numeric with
    | none => raw
    | some v =>
      if tag == "Flash" then .pstr (decode_flash_value (some v))
      else if tag == "MeteringMode" then .pstr (decode_metering_mode (some v))
      else if tag == "WhiteBalance" then .pstr (decode_white_balance (some v))
      else raw
  ⟨raw, numeric, decoded⟩

/-- The fixed field list of `extract_exposure_info` (lines 352-365). -/
def exposure_fields : List String :=
  ["ExposureMode", "ExposureProgram", "ExposureBiasValue", "MeteringMode",
   "LightSource", "Flash", "WhiteBalance", "SceneCaptureType", "GainControl",
   "Contrast", "Saturation", "Sharpness"]

/-- Embeds `CameraSettingsExtractor.extract_exposure_info` (lines 347-389):
one results entry per listed tag present in the EXIF dictionary. -/
def extract_exposure_info (exif_data : PyDict) : List (String × ExposureEntry) :=
  exposure_fields.filterMap fun tag =>
    (dictGet exif_data tag).map fun raw => (tag, decodeField tag raw)

/-- Lookup in the `extract_exposure_info` results dictionary. -/
def exposureGet (l : List (String × ExposureEntry)) (k : String) : Option ExposureEntry :=
  (l.find? (fun p => p.1 == k)).map (fun p => p.2)

end CameraSettingsExtractor

section
open Classical

/-- Round half to even over the reals (Python `round` and the rounding of the
`format` fixed-point presentation types). -/
noncomputable def roundHalfEvenR (x : ℝ) : ℤ :=
  let f := ⌊x⌋
  let r := x - (f : ℝ)
  if r < 1 / 2 then f
  else if 1 / 2 < r then f + 1
  else if Even f then f else f + 1

/-- Model of Python's fixed-point format `f"{x:.kf}"` for a real value (used
only for the APEX power `2 ** (apex / 2)`, which is irrational for odd
integer apex values). -/
noncomputable def realFmt (k : ℕ) (x : ℝ) : String :=
  fixedDigits k (roundHalfEvenR (x * 10 ^ k))

end

namespace PhotoMetadataAnalyzer

/-- A Python value usable as a number by arithmetic, comparison and format
operations (`v / 2`, `v < 1`, `f"{v:.1f}"`): an `int` or a `float`.  On any
other raw tag value those operations raise, uncaught, in
`parse_camera_settings`. -/
def asNum : PyVal → Option ℚ
  | .pint n => some (n : ℚ)
  | .pfloat x => some x
  | _ => none

/-- The numeric value of a two-digit character pair. -/
def twoDigits (a b : Char) : ℕ :=
  10 * (a.toNat - 48) + (b.toNat - 48)

/-- Model of `datetime.strptime(s, "%Y:%m:%d %H:%M:%S")` succeeding: the
exact 19-character colon/space shape with digit fields in range (strptime's
day-of-month/calendar validation is abstracted to per-field range checks). -/
def exifDtOk (s : String) : Bool :=
  match s.toList with
  | [y1, y2, y3, y4, c1, mo1, mo2, c2, d1, d2, sp, h1, h2, c3, mi1, mi2, c4, s1, s2] =>
    y1.isDigit && y2.isDigit && y3.isDigit && y4.isDigit &&
    c1 == ':' && mo1.isDigit && mo2.isDigit && c2 == ':' &&
    d1.isDigit && d2.isDigit && sp == ' ' &&
    h1.isDigit && h2.isDigit && c3 == ':' && mi1.isDigit && mi2.isDigit &&
    c4 == ':' && s1.isDigit && s2.isDigit &&
    decide (1 ≤ twoDigits mo1 mo2) && decide (twoDigits mo1 mo2 ≤ 12) &&
    decide (1 ≤ twoDigits d1 d2) && decide (twoDigits d1 d2 ≤ 31) &&
    decide (twoDigits h1 h2 ≤ 23) && decide (twoDigits mi1 mi2 ≤ 59) &&
    decide (twoDigits s1 s2 ≤ 61)
  | _ => false

/-- The settings dictionary built by
`PhotoMetadataAnalyzer.parse_camera_settings`
(src/photo_analyzer/photo_metadata_analyzer.py lines 66-107); `none` in an
`Option` field means the key is absent (or, for `datetime`, set to `None`
by the `except` arm). -/
structure PMSettings where
  aperture : Option String
  shutter_speed : Option String
  iso : Option PyVal
  focal_length : Option String
  camera : PyVal
  make : PyVal
  lens : PyVal
  datetime : Option String

/-- Embeds `PhotoMetadataAnalyzer.parse_camera_settings` (lines 66-107).
Unlike the converter class, this function has no exception handling around
the aperture and shutter arithmetic: a non-numeric `FNumber`/`ApertureValue`/
`ExposureTime`, or an `ExposureTime` of zero (`int(1/exp_time)`), raises
uncaught, modelled by `Except.error`.  Note the shutter branch truncates with
`int(1/exp_time)` rather than rounding, and its `f"{exp_time}s"` arm
interpolates `str` of the raw value, so an `int` exposure time of 2 renders
`"2s"` while a `float` renders `"2.0s"`. -/
noncomputable def parse_camera_settings (exif_data : PyDict) : Except Unit PMSettings :=
  let apertureE : Except Unit (Option String) :=
    match dictGet exif_data "FNumber" with
    | some v =>
      match asNum v with
      | some q => .ok (some ("f/" ++ formatFixed 1 q))
      | none => .error ()
    | none =>
      match dictGet exif_data "ApertureValue" with
      | some v =>
        match asNum v with
        | some q => .ok (some ("f/" ++ realFmt 1 ((2 : ℝ) ^ ((q : ℝ) / 2))))
        | none => .error ()
      | none => .ok none
  let shutterE : Except Unit (Option String) :=
    match dictGet exif_data "ExposureTime" with
    | some v =>
      match asNum v with
      | some t =>
        if t < 1 then
          if t = 0 then .error ()
          else .ok (some ("1/" ++ toString (pyInt (1 / t))))
        else .ok (some (pyStr v ++ "s"))
      | none => .error ()
    | none => .ok none
  match apertureE, shutterE with
  | .ok aperture, .ok shutter =>
    .ok ⟨aperture, shutter,
         (match dictGet exif_data "ISOSpeedRatings" with
          | some v => some v
          | none => dictGet exif_data "ISO"),
         (dictGet exif_data "FocalLength").map (fun v => pyStr v ++ "mm"),
         (dictGet exif_data "Model").getD (.pstr "Unknown"),
         (dictGet exif_data "Make").getD (.pstr "Unknown"),
         (dictGet exif_data "LensModel").getD (.pstr "Unknown"),
         (match dictGet exif_data "DateTime" with
          | some (.pstr s) => if exifDtOk s then some s else none
          | _ => none)⟩
  | .error e, _ => .error e
  | _, .error e => .error e

/-- The inner `convert_to_degrees` of
`PhotoMetadataAnalyzer.convert_gps_to_decimal` (lines 51-53):
`float(value[0]) + float(value[1])/60 + float(value[2])/3600` with no
exception handling — a short or non-subscriptable value, or a component
`float(...)` rejects, raises uncaught. -/
def convert_to_degrees (value : PyVal) : Except Unit ℚ :=
  match value with
  | .pseq (a :: b :: c :: _) =>
    match pyFloat? a, pyFloat? b, pyFloat? c with
    | some d, some m, some s => .ok (d + m / 60 + s / 3600)
    | _, _, _ => .error ()
  | .pstr s =>
    match s.toList with
    | c0 :: c1 :: c2 :: _ =>
      match parsePyFloat (String.mk [c0]), parsePyFloat (String.mk [c1]),
            parsePyFloat (String.mk [c2]) with
      | some d, some m, some sec => .ok (d + m / 60 + sec / 3600)
      | _, _, _ => .error ()
    | _ => .error ()
  | .pbytes (b0 :: b1 :: b2 :: _) =>
    .ok ((b0 : ℚ) + (b1 : ℚ) / 60 + (b2 : ℚ) / 3600)
  | _ => .error ()

/-- Embeds `PhotoMetadataAnalyzer.convert_gps_to_decimal` (lines 46-64): if
the dictionary is empty or either coordinate tag is absent, the pair
`(None, None)` is returned at once; otherwise both coordinates are converted
(exceptions propagate) and the hemisphere references are applied. -/
def convert_gps_to_decimal (gps_info : PyDict) : Except Unit (Option ℚ × Option ℚ) :=
  if gps_info.isEmpty || (dictGet gps_info "GPSLatitude").isNone ||
     (dictGet gps_info "GPSLongitude").isNone then
    .ok (none, none)
  else
    match convert_to_degrees ((dictGet gps_info "GPSLatitude").getD .pynone),
          convert_to_degrees ((dictGet gps_info "GPSLongitude").getD .pynone) with
    | .ok lat, .ok lon =>
      .ok (some (if GPSExtractor.refIs (dictGet gps_info "GPSLatitudeRef") "S" then -lat else lat),
           some (if GPSExtractor.refIs (dictGet gps_info "GPSLongitudeRef") "W" then -lon else lon))
    | .error e, _ => .error e
    | _, .error e => .error e

/-- What opening one image file and reading its raw EXIF container produces:
either a raised error (unreadable file, corrupt container — the
`PIL.Image.open`/`getexif` calls are external), or the tag dictionary already
keyed by tag names (the external `TAGS`/`GPSTAGS` id-to-name tables are
represented by pre-named keys, with the `GPSInfo` value as a nested dict). -/
inductive ReadOutcome : Type
  | failure : ReadOutcome
  | exifDict : PyDict → ReadOutcome

/-- One file of a directory scan: its name, its size in bytes, and what
reading it produces. -/
structure FileEntry where
  name : String
  sizeBytes : ℚ
  outcome : ReadOutcome

/-- Embeds `PhotoMetadataAnalyzer.extract_exif_data` (lines 15-44): any
exception while opening or reading yields `None` (the `except` arm), an
empty tag container yields `None` (`if not exif_data`), and otherwise the
readable dictionary is returned. -/
def extract_exif_data : ReadOutcome → Option PyDict
  | .failure => none
  | .exifDict d => if d.isEmpty then none else some d

/-- One row of the resulting collection (the `photo_record` dict of lines
138-145): filename, file size in megabytes, the GPS pair, and the parsed
settings. -/
structure PhotoRecord where
  filename : String
  file_size_mb : ℚ
  latitude : Option ℚ
  longitude : Option ℚ
  settings : PMSettings

/-- The per-image body of the `process_photo_directory` loop (lines 126-147)
after a successful extraction: parse the settings, fetch `GPSInfo` (default
`{}`), convert the GPS pair, and build the record.  A `GPSInfo` value that is
not a dict makes the membership test raise, and any exception raised here
propagates out of the loop. -/
noncomputable def processRecord (f : FileEntry) (d : PyDict) : Except Unit PhotoRecord :=
  match parse_camera_settings d with
  | .error e => .error e
  | .ok settings =>
    let gpsE : Except Unit PyDict :=
      match dictGet d "GPSInfo" with
      | none => .ok []
      | some (.pdict g) => .ok g
      | some _ => .error ()
    match gpsE with
    | .error e => .error e
    | .ok gps =>
      match convert_gps_to_decimal gps with
      | .error e => .error e
      | .ok (lat, lon) =>
        .ok ⟨f.name, f.sizeBytes / (1024 * 1024), lat, lon, settings⟩

/-- Embeds `PhotoMetadataAnalyzer.process_photo_directory` (lines 109-149)
from the point where the list of image files is fixed (directory globbing is
external): each file whose extraction returns a dictionary contributes one
record, files whose extraction returns `None` are skipped, and an uncaught
exception inside the loop body aborts the whole batch. -/
noncomputable def process_photo_directory : List FileEntry → Except Unit (List PhotoRecord)
  | [] => .ok []
  | f :: fs =>
    match extract_exif_data f.outcome with
    | none => process_photo_directory fs
    | some d =>
      match processRecord f d with
      | .error e => .error e
      | .ok r =>
        match process_photo_directory fs with
        | .error e => .error e
        | .ok rest => .ok (r :: rest)

end PhotoMetadataAnalyzer

/-! ## Shared hypothesis predicates and helper lemmas -/

/-- `v` is a plain Python number (an `int` or a `float`) with value `x`. -/
def IsNum (v : PyVal) (x : ℚ) : Prop :=
  v = .pfloat x ∨ ∃ n : ℤ, v = .pint n ∧ x = (n : ℚ)

/-- `float(v)` succeeds with value `x` on a plain number `v`. -/
lemma pyFloat?_of_isNum {v : PyVal} {x : ℚ} (h : IsNum v x) : pyFloat? v = some x := by
  rcases h with rfl | ⟨n, rfl, rfl⟩ <;> rfl

/-- The Python comparison `v == 0` on a plain number decides `x = 0`. -/
lemma pyEqZero_of_isNum {v : PyVal} {x : ℚ} (h : IsNum v x) :
    pyEqZero v = decide (x = 0) := by
  rcases h with rfl | ⟨n, rfl, rfl⟩
  · rfl
  · by_cases hn : n = 0
    · subst hn; rfl
    · have hq : (n : ℚ) ≠ 0 := by exact_mod_cast hn
      simp [pyEqZero, hn, hq]

/-- Core behaviour of the `to_float` fraction branch: a tuple/list whose
first two elements are plain numbers is converted as their quotient (`none`
when the denominator is zero), whatever its length. -/
lemma to_float_fraction_core (v0 v1 : PyVal) (rest : List PyVal) (a b : ℚ)
    (nm : String) (h0 : IsNum v0 a) (h1 : IsNum v1 b) :
    (ExifValueConverter.to_float (.pseq (v0 :: v1 :: rest)) nm).1 =
      if b = 0 then none else some (a / b) := by
  have e0 := pyFloat?_of_isNum h0
  have e1 := pyFloat?_of_isNum h1
  have ez := pyEqZero_of_isNum h1
  by_cases hb : b = 0
  · simp [ExifValueConverter.to_float, ez, hb]
  · simp [ExifValueConverter.to_float, ez, hb, e0, e1]

/-- `int(q)` on a float that carries an integer value returns that integer. -/
lemma pyInt_intCast (n : ℤ) : pyInt (n : ℚ) = n := by
  unfold pyInt
  split <;> simp

/-- Python `round` on a float that carries an integer value is the identity. -/
lemma pyRoundHalfEven_intCast (n : ℤ) : pyRoundHalfEven (n : ℚ) = n := by
  norm_num [pyRoundHalfEven, Int.floor_intCast]

/-- The float rendering of a nonnegative integer-valued float is the integer
followed by `".0"` (`str(200.0) = "200.0"`). -/
lemma pyFloatRepr_int (n : ℤ) (hn : 0 ≤ n) :
    pyFloatRepr (n : ℚ) = toString n.toNat ++ ".0" := by
  have hnn : (0 : ℚ) ≤ (n : ℚ) := by exact_mod_cast hn
  have hlt : ¬((n : ℚ) < 0) := not_lt.mpr hnn
  have habs : |(n : ℚ)| = (n : ℚ) := abs_of_nonneg hnn
  simp [pyFloatRepr, habs, hlt, Int.floor_intCast, String.join]
  rw [show toString (0 : ℕ) = "0" from rfl, String.append_assoc,
    show ("." ++ "0" : String) = ".0" from rfl]

/-- A dictionary with a successful lookup is not empty. -/
lemma isEmpty_false_of_dictGet {g : PyDict} {k : String} {v : PyVal}
    (h : dictGet g k = some v) : g.isEmpty = false := by
  cases g with
  | nil => simp [dictGet] at h
  | cons p l => rfl

/-! ## C1: rational pairs under the value normalizer -/

/-- C1: for every rational pair `(n, d)` handed to
`ExifValueConverter.to_float` as a two-element tuple/list of plain numbers,
the result is the exact quotient `n / d` when `d ≠ 0`, and the unavailable
sentinel `None` when `d = 0` — the function returns in both cases (its
codomain models no exception escaping), and never an infinite value (the
result is an exact rational). -/
theorem to_float_rational_pair (num den : PyVal) (a b : ℚ) (nm : String)
    (hn : IsNum num a) (hd : IsNum den b) :
    (b ≠ 0 → (ExifValueConverter.to_float (.pseq [num, den]) nm).1 = some (a / b)) ∧
    (b = 0 → (ExifValueConverter.to_float (.pseq [num, den]) nm).1 = none) := by
  have h := to_float_fraction_core num den [] a b nm hn hd
  constructor
  · intro hb; rw [h, if_neg hb]
  · intro hb; rw [h, if_pos hb]

/-- Witness for C1 at the concrete pairs `(1, 4)` and `(3, 0)`. -/
theorem to_float_rational_pair_witness :
    (ExifValueConverter.to_float (.pseq [.pint 1, .pint 4]) "FNumber").1 = some (1 / 4) ∧
    (ExifValueConverter.to_float (.pseq [.pint 3, .pint 0]) "FNumber").1 = none := by
  constructor
  · have h := (to_float_rational_pair (.pint 1) (.pint 4) 1 4 "FNumber"
      (Or.inr ⟨1, rfl, by norm_num⟩) (Or.inr ⟨4, rfl, by norm_num⟩)).1 (by norm_num)
    rw [h]
  · exact (to_float_rational_pair (.pint 3) (.pint 0) 3 0 "FNumber"
      (Or.inr ⟨3, rfl, by norm_num⟩) (Or.inr ⟨0, rfl, by norm_num⟩)).2 rfl

/-! ## C2: totality of the value normalizer -/

/-- C2: `ExifValueConverter.to_float` is total: every input value yields a
pair of an optional numeric value and a diagnostic string (the model's
codomain; every exception path of the source is caught inside the function),
a bytes input always yields the unavailable result, and a non-numeric string
yields the unavailable result with the original text preserved inside the
diagnostic. -/
theorem to_float_total :
    (∀ (v : PyVal) (nm : String), ∃ (r : Option ℚ) (info : String),
        ExifValueConverter.to_float v nm = (r, info)) ∧
    (∀ (bs : List ℕ) (nm : String),
        (ExifValueConverter.to_float (.pbytes bs) nm).1 = none) ∧
    (∀ (s nm : String), parsePyFloat s = none →
        ExifValueConverter.to_float (.pstr s) nm =
          (none, "Non-numeric string: \x27" ++ s ++ "\x27")) := by
  refine ⟨fun v nm => ⟨(ExifValueConverter.to_float v nm).1,
    (ExifValueConverter.to_float v nm).2, rfl⟩, fun bs nm => rfl, fun s nm h => ?_⟩
  simp [ExifValueConverter.to_float, h]

/-- Witness for C2: the byte blob `[0x41, 0x42]` and the non-numeric string
`"n/a"` both yield the unavailable sentinel, the latter with its text in the
diagnostic. -/
theorem to_float_total_witness :
    (ExifValueConverter.to_float (.pbytes [65, 66]) "MakerNote").1 = none ∧
    ExifValueConverter.to_float (.pstr "n/a") "ExposureTime" =
      (none, "Non-numeric string: \x27n/a\x27") := by
  exact ⟨to_float_total.2.1 [65, 66] "MakerNote",
         to_float_total.2.2 "n/a" "ExposureTime" (by decide)⟩

/-! ## C9: idempotence on already-normalized floats -/

/-- C9: on a plain float `x` — the type of every already-normalized
`PhotoRecord` numeric field — `to_float` returns exactly `x` again, with a
successful conversion diagnostic. -/
theorem to_float_idempotent_on_float (x : ℚ) (nm : String) :
    ExifValueConverter.to_float (.pfloat x) nm =
      (some x, "Direct numeric: " ++ pyFloatRepr x) := rfl

/-! ## C10: sequences of length at least two take the fraction branch -/

/-- C10: any tuple/list of length `≥ 2` whose first two elements are plain
numbers (with nonzero second element) is converted as `element0 / element1`,
the elements beyond the second being ignored — in particular a three-element
degree/minute/second triple is treated as a fraction, not rejected. -/
theorem to_float_uses_first_two (v0 v1 : PyVal) (rest : List PyVal)
    (a b : ℚ) (nm : String) (h0 : IsNum v0 a) (h1 : IsNum v1 b) (hb : b ≠ 0) :
    (ExifValueConverter.to_float (.pseq (v0 :: v1 :: rest)) nm).1 = some (a / b) := by
  rw [to_float_fraction_core v0 v1 rest a b nm h0 h1, if_neg hb]

/-- Witness for C10: the DMS triple `(37, 48, 0)` is converted as `37 / 48`,
its third element ignored. -/
theorem to_float_uses_first_two_witness :
    (ExifValueConverter.to_float (.pseq [.pint 37, .pint 48, .pint 0]) "GPSLatitude").1 =
      some (37 / 48) := by
  have h := to_float_uses_first_two (.pint 37) (.pint 48) [.pint 0] 37 48 "GPSLatitude"
    (Or.inr ⟨37, rfl, by norm_num⟩) (Or.inr ⟨48, rfl, by norm_num⟩) (by norm_num)
  rw [h]

/-! ## C6: shutter-speed display formatting -/

/-- The shutter field of `PhotoMetadataAnalyzer.parse_camera_settings` for a
float `ExposureTime`, when no aperture tag interferes: truncation
`"1/int(1/t)"` below one second, `str(t) + "s"` otherwise. -/
lemma parse_camera_settings_shutter (g : PyDict) (t : ℚ)
    (hF : dictGet g "FNumber" = none) (hA : dictGet g "ApertureValue" = none)
    (hE : dictGet g "ExposureTime" = some (.pfloat t)) (hpos : 0 < t) :
    (PhotoMetadataAnalyzer.parse_camera_settings g).map
        PhotoMetadataAnalyzer.PMSettings.shutter_speed =
      .ok (some (if t < 1 then "1/" ++ toString (pyInt (1 / t))
                 else pyFloatRepr t ++ "s")) := by
  by_cases h1 : t < 1 <;>
    simp [PhotoMetadataAnalyzer.parse_camera_settings, PhotoMetadataAnalyzer.asNum,
      hF, hA, hE, h1, hpos.ne', Except.map, pyStr, pyRepr]

/-- C6 amended: `ExifValueConverter.format_shutter_speed` renders positive
times below one second as `"1/round(1/seconds)"` (Python `round`, i.e.
half-to-even) and times of at least one second as the float rendering
followed by `"s"`; `PhotoMetadataAnalyzer.parse_camera_settings`, by
contrast, renders a sub-second `ExposureTime` by truncation,
`"1/int(1/seconds)"` (and at least one second as `str(seconds) + "s"`), so
the two agree at 0.0005 s and 2.0 s but differ at e.g. 0.6 s. -/
theorem format_shutter_speed_spec (t : ℚ) (hpos : 0 < t) :
    (t < 1 → ExifValueConverter.format_shutter_speed (some t) =
        "1/" ++ toString (pyRoundHalfEven (1 / t))) ∧
    (1 ≤ t → ExifValueConverter.format_shutter_speed (some t) =
        pyFloatRepr t ++ "s") ∧
    (∀ g : PyDict, dictGet g "FNumber" = none → dictGet g "ApertureValue" = none →
        dictGet g "ExposureTime" = some (.pfloat t) →
        (PhotoMetadataAnalyzer.parse_camera_settings g).map
            PhotoMetadataAnalyzer.PMSettings.shutter_speed =
          .ok (some (if t < 1 then "1/" ++ toString (pyInt (1 / t))
                     else pyFloatRepr t ++ "s"))) := by
  refine ⟨?_, ?_, ?_⟩
  · intro h1
    have ht : t ≠ 0 := ne_of_gt hpos
    simp [ExifValueConverter.format_shutter_speed, h1, ht]
  · intro h1
    have h2 : ¬t < 1 := not_lt.mpr h1
    simp [ExifValueConverter.format_shutter_speed, h2]
  · intro g hF hA hE
    exact parse_camera_settings_shutter g t hF hA hE hpos

/-- Witness for the amended C6: `0.0005` seconds renders as `"1/2000"` and
`2.0` seconds renders as `"2.0s"` in the converter class; the batch parser
also renders 2.0 seconds as `"2.0s"`. -/
theorem format_shutter_speed_spec_witness :
    ExifValueConverter.format_shutter_speed (some (1 / 2000)) = "1/2000" ∧
    ExifValueConverter.format_shutter_speed (some 2) = "2.0s" ∧
    (PhotoMetadataAnalyzer.parse_camera_settings [("ExposureTime", .pfloat 2)]).map
        PhotoMetadataAnalyzer.PMSettings.shutter_speed = .ok (some "2.0s") := by
  refine ⟨?_, ?_, ?_⟩
  · have h := (format_shutter_speed_spec (1 / 2000) (by norm_num)).1 (by norm_num)
    rw [h, show (1 : ℚ) / (1 / 2000) = ((2000 : ℤ) : ℚ) by norm_num,
      pyRoundHalfEven_intCast]
    rfl
  · have h := (format_shutter_speed_spec 2 (by norm_num)).2.1 (by norm_num)
    rw [h, show (2 : ℚ) = ((2 : ℤ) : ℚ) by norm_num, pyFloatRepr_int 2 (by norm_num)]
    rfl
  · have h := (format_shutter_speed_spec 2 (by norm_num)).2.2
      [("ExposureTime", .pfloat 2)] rfl rfl rfl
    rw [h, if_neg (by norm_num : ¬(2 : ℚ) < 1),
      show (2 : ℚ) = ((2 : ℤ) : ℚ) by norm_num, pyFloatRepr_int 2 (by norm_num)]
    rfl

/-- Counterexample to C6 as stated: at its named source
`PhotoMetadataAnalyzer.parse_camera_settings`
(src/photo_analyzer/photo_metadata_analyzer.py lines 77-83), an
`ExposureTime` of 0.6 seconds renders as `"1/1"` (truncation via
`int(1/exp_time)`), while the claim's formula `"1/round(1/seconds)"` gives
`"1/2"`. -/
theorem pm_shutter_truncation_counterexample :
    (PhotoMetadataAnalyzer.parse_camera_settings
        [("ExposureTime", .pfloat (3 / 5))]).map
      PhotoMetadataAnalyzer.PMSettings.shutter_speed = .ok (some "1/1") ∧
    "1/" ++ toString (pyRoundHalfEven (1 / (3 / 5 : ℚ))) = "1/2" ∧
    ("1/1" : String) ≠ "1/2" := by
  have hq : (1 : ℚ) / (3 / 5) = 5 / 3 := by norm_num
  have hfl : ⌊(5 / 3 : ℚ)⌋ = 1 := by
    rw [Int.floor_eq_iff]
    norm_num
  have hint : pyInt (5 / 3 : ℚ) = 1 := by
    unfold pyInt
    rw [if_neg (by norm_num), hfl]
  have hr : pyRoundHalfEven (5 / 3 : ℚ) = 2 := by
    unfold pyRoundHalfEven
    rw [hfl]
    norm_num
  refine ⟨?_, ?_, by decide⟩
  · rw [parse_camera_settings_shutter [("ExposureTime", .pfloat (3 / 5))] (3 / 5)
        rfl rfl rfl (by norm_num),
      if_pos (by norm_num : (3 / 5 : ℚ) < 1), hq, hint]
    rfl
  · rw [hq, hr]
    rfl

/-! ## C3: GPS DMS conversion and hemisphere signs -/

/-- `v` is a valid DMS component: a plain number, or a rational pair of
integers with nonzero denominator, with value `x`. -/
def IsDms (v : PyVal) (x : ℚ) : Prop :=
  IsNum v x ∨ ∃ p q : ℤ, q ≠ 0 ∧ v = .pseq [.pint p, .pint q] ∧ x = (p : ℚ) / (q : ℚ)

/-- A valid DMS component converts to its value. -/
lemma dmsComponent_of_isDms {v : PyVal} {x : ℚ} (h : IsDms v x) :
    GPSExtractor.dmsComponent v = .ok (some x) := by
  rcases h with h | ⟨p, q, hq, rfl, rfl⟩
  · rcases h with rfl | ⟨n, rfl, rfl⟩ <;> rfl
  · have hq' : (q : ℚ) ≠ 0 := by exact_mod_cast hq
    simp [GPSExtractor.dmsComponent, pyFloat?, hq']

/-- A three-element DMS tuple of valid components converts to
degrees + minutes/60 + seconds/3600. -/
lemma convert_coordinate_dms {vd vm vs : PyVal} {d m s : ℚ}
    (hd : IsDms vd d) (hm : IsDms vm m) (hs : IsDms vs s) :
    GPSExtractor.convert_coordinate (.pseq [vd, vm, vs]) =
      .ok (some (d + m / 60 + s / 3600)) := by
  have ed := dmsComponent_of_isDms hd
  have em := dmsComponent_of_isDms hm
  have es := dmsComponent_of_isDms hs
  simp [GPSExtractor.convert_coordinate, ed, em, es]

/-- A DMS triple of plain numbers converts through
`PhotoMetadataAnalyzer.convert_to_degrees` by the same formula. -/
lemma pm_convert_to_degrees_nums {va vb vc : PyVal} {a b c : ℚ}
    (ha : IsNum va a) (hb : IsNum vb b) (hc : IsNum vc c) :
    PhotoMetadataAnalyzer.convert_to_degrees (.pseq [va, vb, vc]) =
      .ok (a + b / 60 + c / 3600) := by
  simp [PhotoMetadataAnalyzer.convert_to_degrees, pyFloat?_of_isNum ha,
    pyFloat?_of_isNum hb, pyFloat?_of_isNum hc]

/-- C3 amended: in `GPSExtractor.convert_gps_to_decimal`, a GPS coordinate
given as a three-element degree/minute/second tuple whose components are
plain numbers or rational pairs converts to
degrees + minutes/60 + seconds/3600, the latitude negated exactly when the
latitude reference is `"S"` and the longitude exactly when the longitude
reference is `"W"` (provided the other fields do not raise).
`PhotoMetadataAnalyzer.convert_gps_to_decimal` implements the same formula
and the same negation rule, but only for plain-number components — a
rational-pair component makes its `float()` raise an uncaught `TypeError`,
so nothing is converted there (see the counterexample). -/
theorem convert_gps_to_decimal_dms (g : PyDict) (vd vm vs : PyVal) (d m s : ℚ)
    (hd : IsDms vd d) (hm : IsDms vm m) (hs : IsDms vs s) :
    (∀ olon oalt : Option ℚ,
      dictGet g "GPSLatitude" = some (.pseq [vd, vm, vs]) →
      GPSExtractor.convertField g "GPSLongitude"
          (GPSExtractor.refIs (dictGet g "GPSLongitudeRef") "W") = .ok olon →
      GPSExtractor.convertField g "GPSAltitude"
          (GPSExtractor.refIsOne (dictGet g "GPSAltitudeRef")) = .ok oalt →
      GPSExtractor.convert_gps_to_decimal g =
        .ok ⟨some (if GPSExtractor.refIs (dictGet g "GPSLatitudeRef") "S"
                   then -(d + m / 60 + s / 3600) else d + m / 60 + s / 3600),
             olon, oalt⟩) ∧
    (∀ olat oalt : Option ℚ,
      dictGet g "GPSLongitude" = some (.pseq [vd, vm, vs]) →
      GPSExtractor.convertField g "GPSLatitude"
          (GPSExtractor.refIs (dictGet g "GPSLatitudeRef") "S") = .ok olat →
      GPSExtractor.convertField g "GPSAltitude"
          (GPSExtractor.refIsOne (dictGet g "GPSAltitudeRef")) = .ok oalt →
      GPSExtractor.convert_gps_to_decimal g =
        .ok ⟨olat,
             some (if GPSExtractor.refIs (dictGet g "GPSLongitudeRef") "W"
                   then -(d + m / 60 + s / 3600) else d + m / 60 + s / 3600),
             oalt⟩) ∧
    (∀ (va vb vc : PyVal) (a b c : ℚ), IsNum va a → IsNum vb b → IsNum vc c →
      PhotoMetadataAnalyzer.convert_to_degrees (.pseq [va, vb, vc]) =
        .ok (a + b / 60 + c / 3600)) ∧
    (∀ (va vb vc vx vy vz : PyVal) (a b c x y z : ℚ),
      IsNum va a → IsNum vb b → IsNum vc c →
      IsNum vx x → IsNum vy y → IsNum vz z →
      dictGet g "GPSLatitude" = some (.pseq [va, vb, vc]) →
      dictGet g "GPSLongitude" = some (.pseq [vx, vy, vz]) →
      PhotoMetadataAnalyzer.convert_gps_to_decimal g =
        .ok (some (if GPSExtractor.refIs (dictGet g "GPSLatitudeRef") "S"
                   then -(a + b / 60 + c / 3600) else a + b / 60 + c / 3600),
             some (if GPSExtractor.refIs (dictGet g "GPSLongitudeRef") "W"
                   then -(x + y / 60 + z / 3600) else x + y / 60 + z / 3600))) := by
  have hc := convert_coordinate_dms hd hm hs
  refine ⟨?_, ?_, ?_, ?_⟩
  · intro olon oalt hlat hlon halt
    have hne := isEmpty_false_of_dictGet hlat
    have hlatF : GPSExtractor.convertField g "GPSLatitude"
        (GPSExtractor.refIs (dictGet g "GPSLatitudeRef") "S") =
        .ok (some (if GPSExtractor.refIs (dictGet g "GPSLatitudeRef") "S"
                   then -(d + m / 60 + s / 3600) else d + m / 60 + s / 3600)) := by
      simp [GPSExtractor.convertField, hlat, hc]
    simp [GPSExtractor.convert_gps_to_decimal, hne, hlatF, hlon, halt]
  · intro olat oalt hlon hlat halt
    have hne := isEmpty_false_of_dictGet hlon
    have hlonF : GPSExtractor.convertField g "GPSLongitude"
        (GPSExtractor.refIs (dictGet g "GPSLongitudeRef") "W") =
        .ok (some (if GPSExtractor.refIs (dictGet g "GPSLongitudeRef") "W"
                   then -(d + m / 60 + s / 3600) else d + m / 60 + s / 3600)) := by
      simp [GPSExtractor.convertField, hlon, hc]
    simp [GPSExtractor.convert_gps_to_decimal, hne, hlonF, hlat, halt]
  · intro va vb vc a b c ha hb hc2
    exact pm_convert_to_degrees_nums ha hb hc2
  · intro va vb vc vx vy vz a b c x y z ha hb hc2 hx hy hz hlat hlon
    have hne := isEmpty_false_of_dictGet hlat
    have h1 := pm_convert_to_degrees_nums ha hb hc2
    have h2 := pm_convert_to_degrees_nums hx hy hz
    simp [PhotoMetadataAnalyzer.convert_gps_to_decimal, hne, hlat, hlon, h1, h2]

/-- Witness for the amended C3: the tuple `(37, 48, 0)` with reference `"N"`
converts to exactly `37.8` degrees and with reference `"S"` to the negative
`-37.8` in the GPSExtractor converter; the PhotoMetadataAnalyzer converter
gives the same value for the plain-number triple, applying `"W"` negation to
the longitude. -/
theorem convert_gps_to_decimal_dms_witness :
    GPSExtractor.convert_gps_to_decimal
        [("GPSLatitude", .pseq [.pint 37, .pint 48, .pint 0]),
         ("GPSLatitudeRef", .pstr "N")] = .ok ⟨some (189 / 5), none, none⟩ ∧
    GPSExtractor.convert_gps_to_decimal
        [("GPSLatitude", .pseq [.pint 37, .pint 48, .pint 0]),
         ("GPSLatitudeRef", .pstr "S")] = .ok ⟨some (-(189 / 5)), none, none⟩ ∧
    (-(189 / 5) : ℚ) < 0 ∧
    PhotoMetadataAnalyzer.convert_to_degrees (.pseq [.pint 37, .pint 48, .pint 0]) =
      .ok (189 / 5) ∧
    PhotoMetadataAnalyzer.convert_gps_to_decimal
        [("GPSLatitude", .pseq [.pint 37, .pint 48, .pint 0]),
         ("GPSLongitude", .pseq [.pint 10, .pint 30, .pint 0]),
         ("GPSLongitudeRef", .pstr "W")] =
      .ok (some (189 / 5), some (-(21 / 2))) := by
  have h37 : IsDms (.pint 37) 37 := Or.inl (Or.inr ⟨37, rfl, by norm_num⟩)
  have h48 : IsDms (.pint 48) 48 := Or.inl (Or.inr ⟨48, rfl, by norm_num⟩)
  have h0 : IsDms (.pint 0) 0 := Or.inl (Or.inr ⟨0, rfl, by norm_num⟩)
  have i37 : IsNum (.pint 37) 37 := Or.inr ⟨37, rfl, by norm_num⟩
  have i48 : IsNum (.pint 48) 48 := Or.inr ⟨48, rfl, by norm_num⟩
  have i0 : IsNum (.pint 0) 0 := Or.inr ⟨0, rfl, by norm_num⟩
  have i10 : IsNum (.pint 10) 10 := Or.inr ⟨10, rfl, by norm_num⟩
  have i30 : IsNum (.pint 30) 30 := Or.inr ⟨30, rfl, by norm_num⟩
  refine ⟨?_, ?_, by norm_num, ?_, ?_⟩
  · have h := (convert_gps_to_decimal_dms
      [("GPSLatitude", .pseq [.pint 37, .pint 48, .pint 0]),
       ("GPSLatitudeRef", .pstr "N")] _ _ _ 37 48 0 h37 h48 h0).1
      none none rfl rfl rfl
    rw [h, show GPSExtractor.refIs (dictGet
        [("GPSLatitude", .pseq [.pint 37, .pint 48, .pint 0]),
         ("GPSLatitudeRef", .pstr "N")] "GPSLatitudeRef") "S" = false from rfl]
    norm_num
  · have h := (convert_gps_to_decimal_dms
      [("GPSLatitude", .pseq [.pint 37, .pint 48, .pint 0]),
       ("GPSLatitudeRef", .pstr "S")] _ _ _ 37 48 0 h37 h48 h0).1
      none none rfl rfl rfl
    rw [h, show GPSExtractor.refIs (dictGet
        [("GPSLatitude", .pseq [.pint 37, .pint 48, .pint 0]),
         ("GPSLatitudeRef", .pstr "S")] "GPSLatitudeRef") "S" = true from rfl]
    norm_num
  · have h := (convert_gps_to_decimal_dms
      [("GPSLatitude", .pseq [.pint 37, .pint 48, .pint 0]),
       ("GPSLatitudeRef", .pstr "N")] _ _ _ 37 48 0 h37 h48 h0).2.2.1
      (.pint 37) (.pint 48) (.pint 0) 37 48 0 i37 i48 i0
    rw [h]
    norm_num
  · have h := (convert_gps_to_decimal_dms
      [("GPSLatitude", .pseq [.pint 37, .pint 48, .pint 0]),
       ("GPSLongitude", .pseq [.pint 10, .pint 30, .pint 0]),
       ("GPSLongitudeRef", .pstr "W")] _ _ _ 37 48 0 h37 h48 h0).2.2.2
      (.pint 37) (.pint 48) (.pint 0) (.pint 10) (.pint 30) (.pint 0)
      37 48 0 10 30 0 i37 i48 i0 i10 i30 i0 rfl rfl
    rw [h, show GPSExtractor.refIs (dictGet
        [("GPSLatitude", .pseq [.pint 37, .pint 48, .pint 0]),
         ("GPSLongitude", .pseq [.pint 10, .pint 30, .pint 0]),
         ("GPSLongitudeRef", .pstr "W")] "GPSLatitudeRef") "S" = false from rfl,
      show GPSExtractor.refIs (dictGet
        [("GPSLatitude", .pseq [.pint 37, .pint 48, .pint 0]),
         ("GPSLongitude", .pseq [.pint 10, .pint 30, .pint 0]),
         ("GPSLongitudeRef", .pstr "W")] "GPSLongitudeRef") "W" = true from rfl]
    norm_num

/-- Counterexample to C3 as stated: at its named source
`PhotoMetadataAnalyzer.convert_gps_to_decimal`
(src/photo_analyzer/photo_metadata_analyzer.py lines 46-64), a DMS tuple
whose components are themselves rational pairs is not converted at all:
`float()` of a pair raises an uncaught `TypeError` (line 52), so no
converted value equal to degrees + minutes/60 + seconds/3600 is produced
there. -/
theorem pm_gps_rational_pair_counterexample :
    PhotoMetadataAnalyzer.convert_to_degrees
        (.pseq [.pseq [.pint 37, .pint 1], .pseq [.pint 48, .pint 1],
                .pseq [.pint 0, .pint 1]]) = .error () ∧
    PhotoMetadataAnalyzer.convert_gps_to_decimal
        [("GPSLatitude", .pseq [.pseq [.pint 37, .pint 1], .pseq [.pint 48, .pint 1],
                                .pseq [.pint 0, .pint 1]]),
         ("GPSLatitudeRef", .pstr "N"),
         ("GPSLongitude", .pseq [.pseq [.pint 122, .pint 1], .pseq [.pint 16, .pint 1],
                                 .pseq [.pint 0, .pint 1]])] = .error () :=
  ⟨rfl, rfl⟩

/-! ## C4: partial GPS data -/

/-- Counterexample to C4 as stated: on a GPS dictionary holding a latitude
tuple but no longitude tag, `GPSExtractor.convert_gps_to_decimal`
(src/exif_analyzer.py lines 490-517) reports the latitude alone — the
returned dictionary has latitude `37.8`, not unavailable, while the
longitude is unavailable. -/
theorem gps_partial_latitude_alone_counterexample :
    GPSExtractor.convert_gps_to_decimal
        [("GPSLatitude", .pseq [.pint 37, .pint 48, .pint 0])] =
      .ok ⟨some (189 / 5), none, none⟩ := by
  rw [show GPSExtractor.convert_gps_to_decimal
      [("GPSLatitude", .pseq [.pint 37, .pint 48, .pint 0])] =
      Except.ok (⟨some (((37 : ℤ) : ℚ) + ((48 : ℤ) : ℚ) / 60 + ((0 : ℤ) : ℚ) / 3600),
        none, none⟩ : GPSExtractor.GpsDecimal) from rfl]
  norm_num

/-- C4 amended: `PhotoMetadataAnalyzer.convert_gps_to_decimal` (the converter
used by the batch pipeline, lines 46-64) reports latitude and longitude
unavailable as a pair whenever either coordinate tag is absent;
`GPSExtractor.convert_gps_to_decimal`, by contrast, converts each coordinate
independently and can report one alone. -/
theorem pm_convert_gps_partial_pair (g : PyDict)
    (h : dictGet g "GPSLatitude" = none ∨ dictGet g "GPSLongitude" = none) :
    PhotoMetadataAnalyzer.convert_gps_to_decimal g = .ok (none, none) := by
  rcases h with h | h <;>
    simp [PhotoMetadataAnalyzer.convert_gps_to_decimal, h]

/-- Witness for the amended C4: latitude tuple present, longitude tag
absent. -/
theorem pm_convert_gps_partial_pair_witness :
    PhotoMetadataAnalyzer.convert_gps_to_decimal
        [("GPSLatitude", .pseq [.pint 37, .pint 48, .pint 0])] = .ok (none, none) :=
  pm_convert_gps_partial_pair _ (Or.inr rfl)

/-! ## C8: unknown enumeration codes -/

/-- Counterexample to C8 as stated: through the normalizer pipeline
(`extract_exposure_info` converts the raw `Flash` tag with `to_float` before
decoding), the unknown code `200` decodes to `"Unknown mode (200.0)"` — the
fallback interpolates the float produced by the normalizer, not the integer
— and not to `"Unknown mode (200)"`. -/
theorem flash_unknown_code_counterexample :
    CameraSettingsExtractor.exposureGet
        (CameraSettingsExtractor.extract_exposure_info [("Flash", .pint 200)])
        "Flash" =
      some ⟨.pint 200, some ((200 : ℤ) : ℚ), .pstr "Unknown mode (200.0)"⟩ ∧
    (CameraSettingsExtractor.decodeField "Flash" (.pint 200)).decoded ≠
      .pstr "Unknown mode (200)" := by
  have hfm : ExifValueConverter.flash_modes (pyInt ((200 : ℤ) : ℚ)) = none := by
    rw [pyInt_intCast]
    rfl
  have hdec : ExifValueConverter.decode_flash_value (some ((200 : ℤ) : ℚ)) =
      "Unknown mode (200.0)" := by
    rw [show ExifValueConverter.decode_flash_value (some ((200 : ℤ) : ℚ)) =
        (ExifValueConverter.flash_modes (pyInt ((200 : ℤ) : ℚ))).getD
          ("Unknown mode (" ++ pyFloatRepr ((200 : ℤ) : ℚ) ++ ")") from rfl,
      hfm, pyFloatRepr_int 200 (by norm_num)]
    rfl
  have e1 : CameraSettingsExtractor.decodeField "Flash" (.pint 200) =
      ⟨.pint 200, some ((200 : ℤ) : ℚ), .pstr "Unknown mode (200.0)"⟩ := by
    rw [show CameraSettingsExtractor.decodeField "Flash" (.pint 200) =
        ⟨.pint 200, some ((200 : ℤ) : ℚ),
         .pstr (ExifValueConverter.decode_flash_value (some ((200 : ℤ) : ℚ)))⟩ from rfl,
      hdec]
  constructor
  · rw [show CameraSettingsExtractor.exposureGet
        (CameraSettingsExtractor.extract_exposure_info [("Flash", .pint 200)]) "Flash" =
        some (CameraSettingsExtractor.decodeField "Flash" (.pint 200)) from rfl, e1]
  · intro h
    rw [e1] at h
    have h2 : "Unknown mode (200.0)" = "Unknown mode (200)" := by
      injection h
    exact absurd h2 (by decide)

/-- C8 amended: an integer code `N` absent from the flash, metering-mode or
white-balance decode table never fails — each lookup falls back to a
formatted string — but because the decoder receives the normalizer's float
(both directly and through the `extract_exposure_info` pipeline body
`decodeField`), the decoded string renders the float form of `N` (`N`
followed by `.0`), e.g. `"Unknown mode (200.0)"` for code 200. -/
theorem decode_tables_unknown_code (n : ℤ) :
    (ExifValueConverter.flash_modes n = none →
      (CameraSettingsExtractor.decodeField "Flash" (.pint n)).decoded =
        .pstr ("Unknown mode (" ++ pyFloatRepr (n : ℚ) ++ ")") ∧
      ExifValueConverter.decode_flash_value (some (n : ℚ)) =
        "Unknown mode (" ++ pyFloatRepr (n : ℚ) ++ ")") ∧
    (ExifValueConverter.metering_modes n = none →
      (CameraSettingsExtractor.decodeField "MeteringMode" (.pint n)).decoded =
        .pstr ("Unknown mode (" ++ pyFloatRepr (n : ℚ) ++ ")") ∧
      ExifValueConverter.decode_metering_mode (some (n : ℚ)) =
        "Unknown mode (" ++ pyFloatRepr (n : ℚ) ++ ")") ∧
    (ExifValueConverter.wb_modes n = none →
      (CameraSettingsExtractor.decodeField "WhiteBalance" (.pint n)).decoded =
        .pstr ("Unknown mode (" ++ pyFloatRepr (n : ℚ) ++ ")") ∧
      ExifValueConverter.decode_white_balance (some (n : ℚ)) =
        "Unknown mode (" ++ pyFloatRepr (n : ℚ) ++ ")") := by
  refine ⟨fun h => ?_, fun h => ?_, fun h => ?_⟩
  · have hd : ExifValueConverter.decode_flash_value (some (n : ℚ)) =
        "Unknown mode (" ++ pyFloatRepr (n : ℚ) ++ ")" := by
      simp [ExifValueConverter.decode_flash_value, pyInt_intCast, h]
    exact ⟨by simp [CameraSettingsExtractor.decodeField,
      ExifValueConverter.to_float, hd], hd⟩
  · have hd : ExifValueConverter.decode_metering_mode (some (n : ℚ)) =
        "Unknown mode (" ++ pyFloatRepr (n : ℚ) ++ ")" := by
      simp [ExifValueConverter.decode_metering_mode, pyInt_intCast, h]
    refine ⟨?_, hd⟩
    simp [CameraSettingsExtractor.decodeField, ExifValueConverter.to_float, hd,
      show (("MeteringMode" : String) == "Flash") = false from rfl]
  · have hd : ExifValueConverter.decode_white_balance (some (n : ℚ)) =
        "Unknown mode (" ++ pyFloatRepr (n : ℚ) ++ ")" := by
      simp [ExifValueConverter.decode_white_balance, pyInt_intCast, h]
    refine ⟨?_, hd⟩
    simp [CameraSettingsExtractor.decodeField, ExifValueConverter.to_float, hd,
      show (("WhiteBalance" : String) == "Flash") = false from rfl,
      show (("WhiteBalance" : String) == "MeteringMode") = false from rfl]

/-- Witness for the amended C8 at the unknown code 200, against all three
decode tables. -/
theorem decode_tables_unknown_code_witness :
    ExifValueConverter.decode_flash_value (some ((200 : ℤ) : ℚ)) =
      "Unknown mode (200.0)" ∧
    ExifValueConverter.decode_metering_mode (some ((200 : ℤ) : ℚ)) =
      "Unknown mode (200.0)" ∧
    ExifValueConverter.decode_white_balance (some ((200 : ℤ) : ℚ)) =
      "Unknown mode (200.0)" := by
  refine ⟨?_, ?_, ?_⟩
  · have h := ((decode_tables_unknown_code 200).1 rfl).2
    rw [h, pyFloatRepr_int 200 (by norm_num)]
    rfl
  · have h := ((decode_tables_unknown_code 200).2.1 rfl).2
    rw [h, pyFloatRepr_int 200 (by norm_num)]
    rfl
  · have h := ((decode_tables_unknown_code 200).2.2 rfl).2
    rw [h, pyFloatRepr_int 200 (by norm_num)]
    rfl

/-! ## C7: APEX conversions -/

/-- C7: whenever the `ApertureValue` tag normalizes to an APEX value `a`, the
extracted f-number is `2 ^ (a / 2)` (so apex 0 gives f-number 1 and apex 2
gives 2), and whenever `ShutterSpeedValue` normalizes to `b`, the extracted
exposure time is `2 ^ (-b)` seconds (so apex 0 gives 1 second). -/
theorem apex_conversion_formulas :
    (∀ (g : PyDict) (a : ℚ),
        CameraSettingsExtractor.extract_setting g "ApertureValue" = some a →
        CameraSettingsExtractor.resultGet (CameraSettingsExtractor.extract_aperture g)
            "ApertureValue" = some (CameraSettingsExtractor.apexToFNumber a)) ∧
    CameraSettingsExtractor.apexToFNumber 0 = 1 ∧
    CameraSettingsExtractor.apexToFNumber 2 = 2 ∧
    (∀ (g : PyDict) (b : ℚ),
        CameraSettingsExtractor.extract_setting g "ShutterSpeedValue" = some b →
        CameraSettingsExtractor.resultGet (CameraSettingsExtractor.extract_shutter_speed g)
            "ShutterSpeedValue" = some (CameraSettingsExtractor.apexToSeconds b)) ∧
    CameraSettingsExtractor.apexToSeconds 0 = 1 := by
  refine ⟨?_, ?_, ?_, ?_, ?_⟩
  · intro g a ha
    rcases hF : CameraSettingsExtractor.extract_setting g "FNumber" with _ | f <;>
      rcases hM : CameraSettingsExtractor.extract_setting g "MaxApertureValue" with _ | mx <;>
        simp [CameraSettingsExtractor.extract_aperture,
          CameraSettingsExtractor.resultGet, hF, hM, ha]
  · simp [CameraSettingsExtractor.apexToFNumber, Real.rpow_zero]
  · rw [CameraSettingsExtractor.apexToFNumber,
      show (((2 : ℚ) : ℝ) / 2 : ℝ) = 1 by norm_num]
    exact Real.rpow_one 2
  · intro g b hb
    rcases hE : CameraSettingsExtractor.extract_setting g "ExposureTime" with _ | t <;>
      simp [CameraSettingsExtractor.extract_shutter_speed,
        CameraSettingsExtractor.resultGet, hE, hb]
  · simp [CameraSettingsExtractor.apexToSeconds, Real.rpow_zero]

/-- Witness for C7: apex aperture 2 extracts as f-number 2, apex shutter 0
extracts as 1 second. -/
theorem apex_conversion_formulas_witness :
    CameraSettingsExtractor.resultGet
        (CameraSettingsExtractor.extract_aperture [("ApertureValue", .pfloat 2)])
        "ApertureValue" = some 2 ∧
    CameraSettingsExtractor.resultGet
        (CameraSettingsExtractor.extract_shutter_speed [("ShutterSpeedValue", .pfloat 0)])
        "ShutterSpeedValue" = some 1 := by
  constructor
  · have h := apex_conversion_formulas.1 [("ApertureValue", .pfloat 2)] 2 rfl
    rw [h, apex_conversion_formulas.2.2.1]
  · have h := apex_conversion_formulas.2.2.2.1 [("ShutterSpeedValue", .pfloat 0)] 0 rfl
    rw [h, apex_conversion_formulas.2.2.2.2]

/-! ## C5: per-image failures are skipped, one record per parsed image -/

/-- The record one file contributes to the collection: `none` when its
extraction fails (or its per-record processing raises), otherwise the built
record. -/
noncomputable def recordOf (f : PhotoMetadataAnalyzer.FileEntry) :
    Option PhotoMetadataAnalyzer.PhotoRecord :=
  (PhotoMetadataAnalyzer.extract_exif_data f.outcome).bind fun d =>
    (PhotoMetadataAnalyzer.processRecord f d).toOption

/-- C5: a failure reading one image (unreadable file, missing metadata,
corrupt container) makes `extract_exif_data` return `None` and the image is
skipped, not fatal: provided each successfully extracted image's record
processing succeeds, the whole batch succeeds and the resulting collection
holds exactly one record per successfully parsed image. -/
theorem process_photo_directory_skips_failures
    (files : List PhotoMetadataAnalyzer.FileEntry)
    (h : ∀ f ∈ files, ∀ d,
        PhotoMetadataAnalyzer.extract_exif_data f.outcome = some d →
        ∃ r, PhotoMetadataAnalyzer.processRecord f d = .ok r) :
    PhotoMetadataAnalyzer.process_photo_directory files =
        .ok (files.filterMap recordOf) ∧
    (files.filterMap recordOf).length =
      files.countP (fun f => (PhotoMetadataAnalyzer.extract_exif_data f.outcome).isSome) := by
  induction files with
  | nil => exact ⟨rfl, rfl⟩
  | cons f fs ih =>
    have hfs := ih (fun g hg d hd => h g (List.mem_cons_of_mem f hg) d hd)
    rcases he : PhotoMetadataAnalyzer.extract_exif_data f.outcome with _ | d
    · constructor
      · simpa [PhotoMetadataAnalyzer.process_photo_directory, he, recordOf]
          using hfs.1
      · simpa [recordOf, he, List.countP_cons] using hfs.2
    · obtain ⟨r, hr⟩ := h f (List.mem_cons_self f fs) d he
      constructor
      · simp [PhotoMetadataAnalyzer.process_photo_directory, he, hr, hfs.1,
          recordOf, Except.toOption]
      · simp [recordOf, he, hr, List.countP_cons, Except.toOption, hfs.2]

/-- Witness for C5: three readable images with EXIF tags plus one corrupt
file yield a collection of exactly three records. -/
theorem process_photo_directory_skips_failures_witness :
    ∃ L, PhotoMetadataAnalyzer.process_photo_directory
        [⟨"img1.jpg", 2097152, .exifDict [("Make", .pstr "Canon"), ("Model", .pstr "EOS R5")]⟩,
         ⟨"img2.jpg", 1048576, .exifDict [("Make", .pstr "Nikon")]⟩,
         ⟨"img3.jpg", 1048576, .exifDict [("Model", .pstr "X100V")]⟩,
         ⟨"corrupt.jpg", 512, .failure⟩] = .ok L ∧ L.length = 3 := by
  have h := process_photo_directory_skips_failures
      [⟨"img1.jpg", 2097152, .exifDict [("Make", .pstr "Canon"), ("Model", .pstr "EOS R5")]⟩,
       ⟨"img2.jpg", 1048576, .exifDict [("Make", .pstr "Nikon")]⟩,
       ⟨"img3.jpg", 1048576, .exifDict [("Model", .pstr "X100V")]⟩,
       ⟨"corrupt.jpg", 512, .failure⟩]
      (by
        intro f hf d hd
        simp only [List.mem_cons, List.not_mem_nil, or_false] at hf
        rcases hf with rfl | rfl | rfl | rfl
        · cases hd; exact ⟨_, rfl⟩
        · cases hd; exact ⟨_, rfl⟩
        · cases hd; exact ⟨_, rfl⟩
        · exact Option.noConfusion hd)
  refine ⟨_, h.1, ?_⟩
  rw [h.2]
  rfl

end PhotoTools
